import Mathlib

/-!
Shallow embedding of the buxton configuration store, covering the client
protocol core (src/shared/protocol.c) and the direct-access layered store
(src/shared/direct.c), together with theorems settling the spec claims.

Machine integers are modelled as `Int`/`Nat` with explicit wrap where it
matters.  Out-parameters of the C functions are modelled as `Option` results
(`none` = the buffer was not written).  The pluggable backend is modelled as
an association-list store, following the backend contract of
src/shared/backend.h (get/set/unset returning a success boolean).
-/

namespace Buxton

/-- `BuxtonDataType` from src/src/include/buxton.h (BUXTON_TYPE_MIN = 0 is the
content of a `malloc0`-zeroed `BuxtonData`). -/
inductive BuxtonDataType where
  | typeMin
  | string
  | int32
  | uint32
  | int64
  | uint64
  | float
  | double
  | boolean
deriving DecidableEq, Repr

/-- `BuxtonControlMessage` from src/src/include/buxton.h. -/
inductive BuxtonControlMessage where
  | ctrlMin
  | set
  | setLabel
  | createGroup
  | get
  | unset
  | list
  | status
  | notify
  | unnotify
  | changed
deriving DecidableEq, Repr

/-- One deserialized parameter (`BuxtonData`): the C type is a tagged union;
we model it as a record carrying every field, mirroring the fact that the C
code may read any union member (`buxton_wire_handle_response` reads
`r_list[2].store.d_uint64` without checking that parameter's tag). -/
structure BuxtonParam where
  type : BuxtonDataType
  int32 : Int
  uint64 : Nat
  str : String
deriving DecidableEq, Repr

/-- `BUXTON_STATUS_OK` (src/src/include/buxton.h). -/
def BUXTON_STATUS_OK : Int := 0
/-- `BUXTON_STATUS_FAILED` (src/src/include/buxton.h). -/
def BUXTON_STATUS_FAILED : Int := 1
/-- Linux errno `EPERM` surfaced verbatim by direct.c. -/
def EPERM : Int := 1
/-- Linux errno `ENOENT` surfaced verbatim by direct.c. -/
def ENOENT : Int := 2
/-- Linux errno `EEXIST` surfaced verbatim by direct.c. -/
def EEXIST : Int := 17
/-- `TIMEOUT` from src/src/shared/protocol.c line 27. -/
def TIMEOUT : Int := 3

/-- A pending/notification callback entry, `struct notify_value` from
src/src/shared/protocol.c: submit time (only `tv_sec` is ever read),
original request type, and the callback with its user data (collapsed to a
single identifying number — the model never calls through it). -/
structure NotifyValue where
  tvSec : Int
  msgType : BuxtonControlMessage
  cb : Nat
deriving DecidableEq, Repr

/-- The `callbacks` / `notify_callbacks` tables are systemd-style hashmaps
keyed by msgid.  hashmap.c is vendored code not present under src/; the
tables are modelled from the spec as finite maps msgid → entry, realised as
association lists with at most one entry per key. -/
abbrev CallbackMap := List (Nat × NotifyValue)

/-- `hashmap_get`: first entry with the given key. -/
def hashmapGet (m : CallbackMap) (k : Nat) : Option NotifyValue :=
  m.lookup k

/-- `hashmap_remove`: returns the removed entry (if any) and the map without
any entry under that key. -/
def hashmapRemove (m : CallbackMap) (k : Nat) : Option NotifyValue × CallbackMap :=
  (m.lookup k, m.filter (fun p => ¬ (p.1 = k)))

/-- `hashmap_put`: inserts a fresh key and returns a positive result, or
fails (negative result, map unchanged) when the key is already present with
a different entry — entries are freshly allocated in the modelled code, so
the same-entry case of the C hashmap cannot arise. -/
def hashmapPut (m : CallbackMap) (k : Nat) (v : NotifyValue) : Int × CallbackMap :=
  if (m.lookup k).isSome then (-17, m) else (1, m ++ [(k, v)])

/-- `get_msgid` (src/src/shared/protocol.c lines 41-44):
`__sync_fetch_and_add(&_msgid, 1)` on the process-wide 64-bit counter
`_msgid`.  The state is the counter's current value (an invariant keeps it
below 2^64); the call returns the old value and bumps the counter with
64-bit wrap. -/
def get_msgid (s : Nat) : Nat × Nat :=
  (s, (s + 1) % 2 ^ 64)

/-- Result of `send_message`: the boolean the C function returns, the updated
pending-callbacks table, and the callbacks invoked during the call (always
none — the function never calls `run_callback`). -/
structure SendResult where
  ok : Bool
  callbacks : CallbackMap
  invoked : List Nat
deriving DecidableEq, Repr

/-- `send_message` (src/src/shared/protocol.c lines 115-165): build the new
entry stamped with the current time, take the lock, drop every pending entry
whose `tv_sec` age exceeds `TIMEOUT`, insert the new entry (failure of the
insert aborts), then write the frame (`writeOk` models the `_write` result;
on a failed write the entry is left in the table). -/
def send_message (cbs : CallbackMap) (nowSec : Int) (cb : Nat) (msgid : Nat)
    (msgType : BuxtonControlMessage) (writeOk : Bool) : SendResult :=
  let nv : NotifyValue := ⟨nowSec, msgType, cb⟩
  let gc := cbs.filter (fun p => ¬ (nowSec - p.2.tvSec > TIMEOUT))
  let put := hashmapPut gc msgid nv
  if put.1 < 1 then ⟨false, put.2, []⟩
  else if writeOk then ⟨true, put.2, []⟩
  else ⟨false, put.2, []⟩

/-- The two process-wide callback tables of src/src/shared/protocol.c. -/
structure CallbackTables where
  callbacks : CallbackMap
  notifyCallbacks : CallbackMap
deriving DecidableEq, Repr

/-- Outcome of reading and decoding one frame inside
`buxton_wire_handle_response`.  serialize.c is not under src/, so the decode
outcomes are abstracted per the parsing contract of the spec (§4.1):
`sizeError` = `buxton_get_message_size` returned 0 (wrong magic) or a size
above `BUXTON_MESSAGE_MAX_LENGTH` (4096); `corrupt` =
`buxton_deserialize_message` returned a zero count; `frame` = a
successfully decoded message. -/
inductive ReadEvent where
  | sizeError
  | corrupt
  | frame (msg : BuxtonControlMessage) (msgid : Nat) (params : List BuxtonParam)
deriving DecidableEq, Repr

/-- The per-frame body of `buxton_wire_handle_response`
(src/src/shared/protocol.c lines 205-253).  `none` models the paths that make
the whole function `return 0` (zero parameter count, or the frame-shape check
at lines 209-214 failing).  `some (tables, invoked)` gives the updated tables
and the callbacks run for this frame. -/
def handleFrame (st : CallbackTables) (msg : BuxtonControlMessage) (msgid : Nat)
    (params : List BuxtonParam) : Option (CallbackTables × List Nat) :=
  match params with
  | [] => none
  | p0 :: _ =>
    if ¬ ((msg = .status ∧ p0.type = .int32) ∨ (msg = .changed ∧ p0.type = .string)) then
      none
    else
      let rem := hashmapRemove st.callbacks msgid
      let nv? : Option NotifyValue :=
        match rem.1 with
        | some x => some x
        | none => if msg = .changed then hashmapGet st.notifyCallbacks msgid else none
      match nv? with
      | none => some (⟨rem.2, st.notifyCallbacks⟩, [])
      | some nv =>
        let sntf : Int × CallbackMap :=
          if nv.msgType = .notify then
            if p0.type = .int32 ∧ p0.int32 = BUXTON_STATUS_OK then
              hashmapPut st.notifyCallbacks msgid nv
            else (-1, st.notifyCallbacks)
          else if nv.msgType = .unnotify then
            if p0.type = .int32 ∧ p0.int32 = BUXTON_STATUS_OK ∧ params.length = 3 then
              (-1, (hashmapRemove st.notifyCallbacks
                      (((params[2]?).map (fun p => p.uint64)).getD 0)).2)
            else (-1, st.notifyCallbacks)
          else (-1, st.notifyCallbacks)
        let invoked : List Nat := if sntf.1 < 0 then [nv.cb] else []
        some (⟨rem.2, sntf.2⟩, invoked)

/-- The read/decode/dispatch loop of `buxton_wire_handle_response`
(src/src/shared/protocol.c lines 185-258), with the accumulated return value,
tables, and invoked callbacks threaded explicitly.  The end of the event list
models `read` returning no further data (the function then returns the count
of frames handled); a decode error or shape failure returns 0 on the spot,
keeping table updates and callback invocations already performed. -/
def handleResponseLoop (st : CallbackTables) (invoked : List Nat) (handled : Nat) :
    List ReadEvent → Nat × CallbackTables × List Nat
  | [] => (handled, st, invoked)
  | .sizeError :: _ => (0, st, invoked)
  | .corrupt :: _ => (0, st, invoked)
  | .frame msg msgid params :: rest =>
    match handleFrame st msg msgid params with
    | none => (0, st, invoked)
    | some (st2, inv) => handleResponseLoop st2 (invoked ++ inv) (handled + 1) rest

/-- `buxton_wire_handle_response` (src/src/shared/protocol.c lines 167-261):
process the stream of decode outcomes, returning (return value, final
tables, callbacks invoked). -/
def buxton_wire_handle_response (st : CallbackTables) (events : List ReadEvent) :
    Nat × CallbackTables × List Nat :=
  handleResponseLoop st [] 0 events

/-- A decoded frame that passes the shape check at protocol.c lines 209-214:
a `STATUS` whose first parameter is `INT32`, or a `CHANGED` whose first
parameter is `STRING`. -/
def acceptedFrame : ReadEvent → Prop
  | .frame msg _ (p0 :: _) =>
      (msg = .status ∧ p0.type = .int32) ∨ (msg = .changed ∧ p0.type = .string)
  | _ => False

instance : DecidablePred acceptedFrame := by
  intro ev
  cases ev with
  | sizeError => exact isFalse (fun h => h)
  | corrupt => exact isFalse (fun h => h)
  | frame msg msgid params =>
    cases params with
    | nil => exact isFalse (fun h => h)
    | cons p0 rest => exact inferInstanceAs (Decidable (_ ∨ _))

/-- `BuxtonLayerType` from src/src/shared/backend.h. -/
inductive BuxtonLayerType where
  | system
  | user
deriving DecidableEq, Repr

/-- `BuxtonLayer` (src/src/shared/backend.h): the fields the direct path
reads.  `uid` is stamped per request from the caller and only selects the
per-user database file, which the store model keys by layer name alone (a
single caller uid is in play in every claim). -/
structure BuxtonLayer where
  name : String
  type : BuxtonLayerType
  priority : Int
deriving DecidableEq, Repr

/-- `config->layers`: the configured layers, in hashmap iteration order. -/
abbrev BuxtonConfig := List BuxtonLayer

/-- `hashmap_get(config->layers, name)`. -/
def layerLookup (cfg : BuxtonConfig) (name : String) : Option BuxtonLayer :=
  cfg.find? (fun l => l.name = name)

/-- The value payload of a stored `BuxtonData`.  `unset` is the content of a
`malloc0`-zeroed `BuxtonData` (type `BUXTON_TYPE_MIN`, no payload). -/
inductive BuxtonDataValue where
  | unset
  | string (s : String)
  | int32 (i : Int)
  | uint64 (n : Nat)
  | boolean (b : Bool)
deriving DecidableEq, Repr

/-- `_BuxtonKey` (compound key): optional layer, group, optional name.
`none` models a NULL `BuxtonString.value`. -/
structure BuxtonKey where
  layer : Option String
  group : String
  name : Option String
deriving DecidableEq, Repr

/-- One record persisted by a backend: per the backend contract (src/src/
shared/backend.h and spec §4.2) a layer's database maps the compound key to
`(value, label)`.  A `name` of `none` is a group record. -/
structure StoreRecord where
  layerName : String
  group : String
  name : Option String
  value : BuxtonDataValue
  label : Option String
deriving DecidableEq, Repr

/-- The combined state of every backend database. -/
abbrev BuxtonStore := List StoreRecord

/-- `backend->get_value`: look the key up in the layer's database. -/
def storeGet (st : BuxtonStore) (ln g : String) (n : Option String) :
    Option (BuxtonDataValue × Option String) :=
  (st.find? (fun r => r.layerName = ln ∧ r.group = g ∧ r.name = n)).map
    (fun r => (r.value, r.label))

/-- `backend->set_value`: store (create or replace) the record; the backend
contract reports success as a boolean (true, i.e. 1 when assigned to the
`int32_t` results of direct.c). -/
def storeSet (st : BuxtonStore) (ln g : String) (n : Option String)
    (v : BuxtonDataValue) (lbl : Option String) : BuxtonStore :=
  ⟨ln, g, n, v, lbl⟩ :: st.filter (fun r => ¬ (r.layerName = ln ∧ r.group = g ∧ r.name = n))

/-- Access mode for `buxton_check_smack_access`. -/
inductive AccessMode where
  | read
  | write
deriving DecidableEq, Repr

/-- The access-check hook `buxton_check_smack_access(subject, object, mode)`
(smack.c is outside the modelled core; the spec abstracts it behind an
`access_check` hook), taken as a parameter of every direct operation.  The
object label may be an unwritten buffer (`none`). -/
abbrev SmackCheck := Option String → Option String → AccessMode → Bool

/-- Result of `buxton_direct_get_value_for_layer`: the `int32_t` return and
the two out-parameters (`none` = the caller's buffer was not written). -/
structure GetResult where
  ret : Int
  data : Option BuxtonDataValue
  dataLabel : Option String
deriving DecidableEq, Repr

/-- `buxton_direct_get_value_for_layer` on a key whose `name` is NULL — the
base case of the C recursion (the group sub-lookup at direct.c line 150 is
always of this shape, so the recursion never goes deeper than one level).
Per src/src/shared/direct.c lines 110-181: `ret` starts as
`BUXTON_STATUS_FAILED`; a NULL layer name, unknown layer, or failed backend
lookup return it unchanged; on a backend hit the value-label access check
(line 167, applied when the stored label and the client label are both
present) may yield `EPERM`, otherwise `BUXTON_STATUS_OK`. -/
def getGroupForLayer (chk : SmackCheck) (cfg : BuxtonConfig) (store : BuxtonStore)
    (layerName : Option String) (group : String) (clientLabel : Option String) : GetResult :=
  match layerName with
  | none => ⟨BUXTON_STATUS_FAILED, none, none⟩
  | some ln =>
    match layerLookup cfg ln with
    | none => ⟨BUXTON_STATUS_FAILED, none, none⟩
    | some _ =>
      match storeGet store ln group none with
      | none => ⟨BUXTON_STATUS_FAILED, none, none⟩
      | some (v, lbl) =>
        if lbl.isSome ∧ clientLabel.isSome ∧ ¬ chk clientLabel lbl .read then
          ⟨EPERM, some v, none⟩
        else
          ⟨BUXTON_STATUS_OK, some v, lbl⟩

/-- `buxton_direct_get_value_for_layer` (src/src/shared/direct.c lines
110-181).  For a value key: the group record is looked up first via the
recursive call with a NULL client label (line 150) and its nonzero status is
propagated; the group-label read check (line 159) runs when a client label is
present; then the backend lookup of the value itself.  NOTE (faithful to the
source): when the group lookup succeeded but the backend does not hold the
value, `ret` still carries `BUXTON_STATUS_OK` from the group recursion and is
returned as-is with no out-parameter written. -/
def buxton_direct_get_value_for_layer (chk : SmackCheck) (cfg : BuxtonConfig)
    (store : BuxtonStore) (key : BuxtonKey) (clientLabel : Option String) : GetResult :=
  match key.name with
  | none => getGroupForLayer chk cfg store key.layer key.group clientLabel
  | some nm =>
    match key.layer with
    | none => ⟨BUXTON_STATUS_FAILED, none, none⟩
    | some ln =>
      match layerLookup cfg ln with
      | none => ⟨BUXTON_STATUS_FAILED, none, none⟩
      | some _ =>
        let gr := getGroupForLayer chk cfg store (some ln) key.group none
        if gr.ret ≠ 0 then ⟨gr.ret, none, none⟩
        else if clientLabel.isSome ∧ ¬ chk clientLabel gr.dataLabel .read then
          ⟨EPERM, none, none⟩
        else
          match storeGet store ln key.group (some nm) with
          | none => ⟨gr.ret, none, none⟩
          | some (v, lbl) =>
            if lbl.isSome ∧ clientLabel.isSome ∧ ¬ chk clientLabel lbl .read then
              ⟨EPERM, some v, none⟩
            else
              ⟨BUXTON_STATUS_OK, some v, lbl⟩

/-- Accumulator of the layer-scan loop in `buxton_direct_get_value`
(src/src/shared/direct.c lines 66-94): `layer_origin` (initially -1, modelled
`none`), `priority` (initially 0), the tracked winning layer name, and the
current contents of the caller's `data_label` buffer. -/
structure ScanAcc where
  origin : Option BuxtonLayerType
  priority : Int
  chosen : Option String
  dlabel : Option String
deriving DecidableEq, Repr

/-- One iteration of the `HASHMAP_FOREACH` loop of `buxton_direct_get_value`:
run the per-layer lookup; when its status is nonzero, free the `data_label`
buffer and track this layer as the running best under the priority rule of
lines 81-84; when the status is zero, the buffer keeps whatever the lookup
wrote. -/
def scanStep (chk : SmackCheck) (cfg : BuxtonConfig) (store : BuxtonStore)
    (key : BuxtonKey) (clientLabel : Option String) (acc : ScanAcc) (l : BuxtonLayer) :
    ScanAcc :=
  let r := buxton_direct_get_value_for_layer chk cfg store
             { key with layer := some l.name } clientLabel
  if r.ret ≠ 0 then
    if (l.type = .system ∧ (acc.origin ≠ some .system ∨ acc.priority ≤ l.priority))
       ∨ (l.type = .user ∧ acc.origin ≠ some .system ∧ acc.priority ≤ l.priority) then
      ⟨some l.type, l.priority, some l.name, none⟩
    else
      { acc with dlabel := none }
  else
    { acc with dlabel := r.dataLabel.orElse (fun _ => acc.dlabel) }

/-- `buxton_direct_get_value` (src/src/shared/direct.c lines 42-108).  With an
explicit layer the per-layer lookup is delegated to directly.  Without one,
every configured layer is scanned with `scanStep`; if a layer was tracked the
lookup is repeated against it and its result returned, otherwise `ENOENT`. -/
def buxton_direct_get_value (chk : SmackCheck) (cfg : BuxtonConfig) (store : BuxtonStore)
    (key : BuxtonKey) (clientLabel : Option String) : GetResult :=
  match key.layer with
  | some _ => buxton_direct_get_value_for_layer chk cfg store key clientLabel
  | none =>
    let acc := cfg.foldl (scanStep chk cfg store key clientLabel) ⟨none, 0, none, none⟩
    match acc.chosen with
    | some ln =>
      let rf := buxton_direct_get_value_for_layer chk cfg store
                  { key with layer := some ln } clientLabel
      ⟨rf.ret, rf.data, rf.dataLabel.orElse (fun _ => acc.dlabel)⟩
    | none => ⟨ENOENT, none, acc.dlabel⟩

/-- Result of a mutating direct operation: the `int32_t` return and the store
afterwards. -/
structure SetResult where
  ret : Int
  store : BuxtonStore
deriving DecidableEq, Repr

/-- `buxton_direct_set_value` (src/src/shared/direct.c lines 183-268).
Mirrors the source exactly: the group pre-check at line 227 bails out
(`BUXTON_STATUS_FAILED`) when the group lookup returns zero; the label `l` to
store is chosen by the lines 233-250 case split (where `data_label` is the
buffer of the full-key lookup, left unwritten — `none` — whenever that lookup
did not reach a stored value); the layer and backend are then resolved and
`backend->set_value` (boolean true = 1) provides the return value. -/
def buxton_direct_set_value (chk : SmackCheck) (cfg : BuxtonConfig) (store : BuxtonStore)
    (key : BuxtonKey) (data : BuxtonDataValue) (label : Option String) : SetResult :=
  let gr := getGroupForLayer chk cfg store key.layer key.group none
  if gr.ret = 0 then ⟨BUXTON_STATUS_FAILED, store⟩
  else
    let dres := buxton_direct_get_value_for_layer chk cfg store key none
    let lChoice : Option (Option String) :=
      match label with
      | some lb =>
        if ¬ chk (some lb) gr.dataLabel .write then none
        else if dres.ret ≠ 0 then
          if ¬ chk (some lb) dres.dataLabel .write then none
          else some dres.dataLabel
        else some (some lb)
      | none =>
        if dres.ret ≠ 0 then some dres.dataLabel
        else some (some "_")
    match lChoice with
    | none => ⟨BUXTON_STATUS_FAILED, store⟩
    | some l =>
      match key.layer with
      | none => ⟨BUXTON_STATUS_FAILED, store⟩
      | some ln =>
        match layerLookup cfg ln with
        | none => ⟨BUXTON_STATUS_FAILED, store⟩
        | some _ => ⟨1, storeSet store ln key.group key.name data l⟩

/-- `buxton_direct_create_group` (src/src/shared/direct.c lines 341-430).
Mirrors the source exactly: unknown layer returns `BUXTON_STATUS_FAILED`;
on a SYSTEM layer a caller with nonzero uid is rejected with `EPERM` unless
the `BUXTON_ROOT_CHECK` environment variable is the string "0"; the
existence probe at line 389 yields `EEXIST` when the lookup status is
NONzero; otherwise the sentinel record is written with the supplied label or
the default "_", and `backend->set_value`'s boolean (1) is returned. -/
def buxton_direct_create_group (chk : SmackCheck) (cfg : BuxtonConfig)
    (store : BuxtonStore) (key : BuxtonKey) (label : Option String)
    (uid : Nat) (rootCheck : Option String) : SetResult :=
  match key.layer with
  | none => ⟨BUXTON_STATUS_FAILED, store⟩
  | some ln =>
    match layerLookup cfg ln with
    | none => ⟨BUXTON_STATUS_FAILED, store⟩
    | some layer =>
      if layer.type = .system ∧ uid ≠ 0 ∧ ¬ (rootCheck = some "0") then
        ⟨EPERM, store⟩
      else
        let gr := buxton_direct_get_value_for_layer chk cfg store key none
        if gr.ret ≠ 0 then ⟨EEXIST, store⟩
        else
          let dlabel := label.getD "_"
          ⟨1, storeSet store ln key.group key.name
                (.string "BUXTON_GROUP_VALUE") (some dlabel)⟩

/-- `buxton_direct_set_label` (src/src/shared/direct.c lines 270-339).
Mirrors the source exactly, including that `ret` is initialised to
`BUXTON_STATUS_OK` (line 279), so the unknown-layer and USER-layer bailouts
return 0.  On a SYSTEM layer: unprivileged callers get `EPERM` unless
`BUXTON_ROOT_CHECK` is "0"; a nonzero lookup status is propagated; otherwise
the record is rewritten with the new label and the value read back (the
zeroed buffer if the lookup wrote nothing), returning `backend->set_value`'s
boolean (1). -/
def buxton_direct_set_label (chk : SmackCheck) (cfg : BuxtonConfig)
    (store : BuxtonStore) (key : BuxtonKey) (label : String)
    (uid : Nat) (rootCheck : Option String) : SetResult :=
  match key.layer with
  | none => ⟨BUXTON_STATUS_OK, store⟩
  | some ln =>
    match layerLookup cfg ln with
    | none => ⟨BUXTON_STATUS_OK, store⟩
    | some layer =>
      match layer.type with
      | .user => ⟨BUXTON_STATUS_OK, store⟩
      | .system =>
        if uid ≠ 0 ∧ ¬ (rootCheck = some "0") then
          ⟨EPERM, store⟩
        else
          let gr := buxton_direct_get_value_for_layer chk cfg store key none
          if gr.ret ≠ 0 then ⟨gr.ret, store⟩
          else
            ⟨1, storeSet store ln key.group key.name (gr.data.getD .unset) (some label)⟩

/-! ## Helper lemmas -/

theorem lookup_eq_none_of_keys (l : CallbackMap) (k : Nat)
    (h : ∀ p ∈ l, p.1 ≠ k) : l.lookup k = none := by
  induction l with
  | nil => rfl
  | cons p t ih =>
    have hp : p.1 ≠ k := h p (List.mem_cons_self p t)
    have : (k == p.1) = false := by
      exact beq_false_of_ne (fun hk => hp hk.symm)
    simp only [List.lookup, this]
    exact ih (fun q hq => h q (List.mem_cons_of_mem p hq))

theorem lookup_filter_self (l : CallbackMap) (k : Nat) :
    (l.filter (fun p => ¬ (p.1 = k))).lookup k = none := by
  apply lookup_eq_none_of_keys
  intro p hp
  have := List.of_mem_filter hp
  simpa using this

theorem lookup_append_single (l : CallbackMap) (k : Nat) (v : NotifyValue)
    (h : l.lookup k = none) : (l ++ [(k, v)]).lookup k = some v := by
  induction l with
  | nil => simp [List.lookup]
  | cons p t ih =>
    by_cases hk : (k == p.1) = true
    · simp only [List.lookup, hk] at h
      exact absurd h (by simp)
    · have hk' : (k == p.1) = false := by simpa using hk
      simp only [List.lookup, hk'] at h ⊢
      exact ih h

theorem keyNodup_eq (l : CallbackMap) (hnodup : (l.map Prod.fst).Nodup)
    {k : Nat} {v w : NotifyValue} (hv : (k, v) ∈ l) (hw : (k, w) ∈ l) : v = w := by
  induction l with
  | nil => cases hv
  | cons p t ih =>
    rw [List.map_cons, List.nodup_cons] at hnodup
    rcases List.mem_cons.mp hv with hv1 | hv1 <;>
      rcases List.mem_cons.mp hw with hw1 | hw1
    · have h := hv1.trans hw1.symm
      injection h with h1 h2
    · exfalso
      apply hnodup.1
      have hkmem : k ∈ t.map Prod.fst := by
        simpa using List.mem_map_of_mem Prod.fst hw1
      rw [← hv1]
      simpa using hkmem
    · exfalso
      apply hnodup.1
      have hkmem : k ∈ t.map Prod.fst := by
        simpa using List.mem_map_of_mem Prod.fst hv1
      rw [← hw1]
      simpa using hkmem
    · exact ih hnodup.2 hv1 hw1

theorem send_message_callbacks_eq (cbs : CallbackMap) (nowSec : Int)
    (cb msgid : Nat) (msgType : BuxtonControlMessage) (writeOk : Bool) :
    (send_message cbs nowSec cb msgid msgType writeOk).callbacks
      = (hashmapPut (cbs.filter (fun p => ¬ (nowSec - p.2.tvSec > TIMEOUT))) msgid
          ⟨nowSec, msgType, cb⟩).2 := by
  simp only [send_message]
  split
  · rfl
  · split <;> rfl

theorem send_message_invoked_eq (cbs : CallbackMap) (nowSec : Int)
    (cb msgid : Nat) (msgType : BuxtonControlMessage) (writeOk : Bool) :
    (send_message cbs nowSec cb msgid msgType writeOk).invoked = [] := by
  simp only [send_message]
  split
  · rfl
  · split <;> rfl

/-! ## C9: message IDs strictly increase between successive calls -/

/-- C9: message ids come from the single process-wide 64-bit counter
`_msgid`; of two successive `get_msgid` calls, the second returns a strictly
greater value, as long as the first does not sit at the 64-bit wrap point
(the claim's "modulo 64-bit wrap-around" proviso). -/
theorem get_msgid_strictly_increasing (s : Nat) (hwrap : s + 1 < 2 ^ 64) :
    (get_msgid s).1 < (get_msgid ((get_msgid s).2)).1 := by
  simp only [get_msgid, Nat.mod_eq_of_lt hwrap]
  exact Nat.lt_succ_self s

/-- Witness: the counter at 0 issues 0 then 1. -/
theorem get_msgid_strictly_increasing_witness :
    (get_msgid 0).1 < (get_msgid ((get_msgid 0).2)).1 :=
  get_msgid_strictly_increasing 0 (by decide)

/-! ## C6: pending entries older than TIMEOUT are reaped, never invoked -/

/-- C6: during `send_message`, every pending entry whose submit time lies
more than `TIMEOUT` (3) seconds before the current time is removed from the
pending table, and `send_message` invokes no callback at all.  The new
request's msgid is fresh (`k ≠ msgid`), and the pending table, being a
hashmap, has no duplicate keys. -/
theorem send_message_reaps_timed_out (cbs : CallbackMap) (k : Nat) (nvi : NotifyValue)
    (nowSec : Int) (cb msgid : Nat) (msgType : BuxtonControlMessage) (writeOk : Bool)
    (hmem : (k, nvi) ∈ cbs) (hnodup : (cbs.map Prod.fst).Nodup)
    (hold : nowSec - nvi.tvSec > TIMEOUT) (hk : k ≠ msgid) :
    (send_message cbs nowSec cb msgid msgType writeOk).callbacks.lookup k = none
    ∧ (send_message cbs nowSec cb msgid msgType writeOk).invoked = [] := by
  have hgc : ∀ p ∈ cbs.filter (fun p => ¬ (nowSec - p.2.tvSec > TIMEOUT)), p.1 ≠ k := by
    intro p hp hpk
    have hmemf := List.of_mem_filter hp
    have hmemc := List.mem_of_mem_filter hp
    have : p.2 = nvi := keyNodup_eq cbs hnodup (hpk ▸ hmemc) hmem
    rw [this] at hmemf
    simp only [decide_eq_true_eq] at hmemf
    exact hmemf hold
  have hput : ∀ p ∈ (hashmapPut (cbs.filter (fun p => ¬ (nowSec - p.2.tvSec > TIMEOUT)))
      msgid ⟨nowSec, msgType, cb⟩).2, p.1 ≠ k := by
    intro p hp
    unfold hashmapPut at hp
    by_cases hs : ((cbs.filter (fun p => ¬ (nowSec - p.2.tvSec > TIMEOUT))).lookup
        msgid).isSome
    · rw [if_pos hs] at hp
      exact hgc p hp
    · rw [if_neg hs] at hp
      rcases List.mem_append.mp hp with h1 | h1
      · exact hgc p h1
      · intro hpk
        apply hk
        rw [← hpk]
        have : p = (msgid, (⟨nowSec, msgType, cb⟩ : NotifyValue)) := by simpa using h1
        rw [this]

  refine ⟨?_, send_message_invoked_eq cbs nowSec cb msgid msgType writeOk⟩
  rw [send_message_callbacks_eq]
  exact lookup_eq_none_of_keys _ _ hput

/-- Witness for C6: a concrete table with an entry submitted at second 0,
reaped by a send at second 10. -/
theorem send_message_reaps_timed_out_witness :
    (send_message [(1, ⟨0, .get, 7⟩)] 10 9 3 .get true).callbacks.lookup 1 = none
    ∧ (send_message [(1, ⟨0, .get, 7⟩)] 10 9 3 .get true).invoked = [] :=
  send_message_reaps_timed_out [(1, ⟨0, .get, 7⟩)] 1 ⟨0, .get, 7⟩ 10 9 3 .get true
    (by decide) (by decide) (by decide) (by decide)

/-! ## C4: STATUS frames matching a pending entry -/

/-- Tables component of a `handleFrame` outcome. -/
def frameTables (r : Option (CallbackTables × List Nat)) : CallbackTables :=
  (r.map Prod.fst).getD ⟨[], []⟩

/-- Invoked-callbacks component of a `handleFrame` outcome. -/
def frameInvoked (r : Option (CallbackTables × List Nat)) : List Nat :=
  (r.map Prod.snd).getD []

/-- The pending entry used by the C4 counterexample: an original NOTIFY
request with callback 1, submitted at second 0. -/
def c4nv : NotifyValue := ⟨0, .notify, 1⟩

/-- Pending table holding that entry under msgid 5, empty notification
table. -/
def c4tables : CallbackTables := ⟨[(5, c4nv)], []⟩

/-- A decoded `STATUS` parameter carrying `INT32` `BUXTON_STATUS_OK`. -/
def statusOkParam : BuxtonParam := ⟨.int32, 0, 0, ""⟩

/-- Counterexample to C4: a STATUS frame with msgid 5 matching a pending
NOTIFY entry.  The entry is removed from the pending table and moved into
the notification table, but the invoked-callback list is empty — the claim
requires the callback (1) to be invoked for every original request type
including NOTIFY, so the claim fails at this input. -/
theorem c4_notify_callback_not_invoked :
    handleFrame c4tables .status 5 [statusOkParam] = some (⟨[], [(5, c4nv)]⟩, [])
    ∧ ([] : List Nat) ≠ [c4nv.cb] := by
  constructor
  · decide
  · decide

theorem handleFrame_status_notify_fresh (st : CallbackTables) (msgid : Nat)
    (p0 : BuxtonParam) (rest : List BuxtonParam) (nv : NotifyValue)
    (hp0 : p0.type = .int32) (hfind : st.callbacks.lookup msgid = some nv)
    (h1 : nv.msgType = .notify) (h2 : p0.int32 = BUXTON_STATUS_OK)
    (hlook : st.notifyCallbacks.lookup msgid = none) :
    handleFrame st .status msgid (p0 :: rest)
      = some (⟨st.callbacks.filter (fun p => ¬ (p.1 = msgid)),
               st.notifyCallbacks ++ [(msgid, nv)]⟩, []) := by
  simp [handleFrame, hashmapRemove, hashmapPut, hfind, hp0, h1, h2, hlook]

theorem handleFrame_status_notify_stale (st : CallbackTables) (msgid : Nat)
    (p0 : BuxtonParam) (rest : List BuxtonParam) (nv w : NotifyValue)
    (hp0 : p0.type = .int32) (hfind : st.callbacks.lookup msgid = some nv)
    (h1 : nv.msgType = .notify) (h2 : p0.int32 = BUXTON_STATUS_OK)
    (hlook : st.notifyCallbacks.lookup msgid = some w) :
    handleFrame st .status msgid (p0 :: rest)
      = some (⟨st.callbacks.filter (fun p => ¬ (p.1 = msgid)),
               st.notifyCallbacks⟩, [nv.cb]) := by
  simp [handleFrame, hashmapRemove, hashmapPut, hfind, hp0, h1, h2, hlook]

theorem handleFrame_status_other_components (st : CallbackTables) (msgid : Nat)
    (p0 : BuxtonParam) (rest : List BuxtonParam) (nv : NotifyValue)
    (hp0 : p0.type = .int32) (hfind : st.callbacks.lookup msgid = some nv)
    (hno : ¬ (nv.msgType = .notify ∧ p0.int32 = BUXTON_STATUS_OK)) :
    (handleFrame st .status msgid (p0 :: rest)).isSome
    ∧ (frameTables (handleFrame st .status msgid (p0 :: rest))).callbacks
        = st.callbacks.filter (fun p => ¬ (p.1 = msgid))
    ∧ frameInvoked (handleFrame st .status msgid (p0 :: rest)) = [nv.cb] := by
  by_cases h1 : nv.msgType = .notify
  · have h2 : ¬ p0.int32 = BUXTON_STATUS_OK := fun h => hno ⟨h1, h⟩
    simp [handleFrame, hashmapRemove, hfind, hp0, h1, h2, frameTables, frameInvoked]
  · by_cases h2 : nv.msgType = .unnotify
    · by_cases h3 : p0.int32 = BUXTON_STATUS_OK ∧ (p0 :: rest).length = 3
      · simp [handleFrame, hashmapRemove, hfind, hp0, h1, h2, h3.1, h3.2,
          frameTables, frameInvoked]
      · rw [Classical.not_and_iff_or_not_not] at h3
        rcases h3 with h3 | h3 <;>
          simp [handleFrame, hashmapRemove, hfind, hp0, h1, h2, h3,
            frameTables, frameInvoked] <;>
          (try (split <;> norm_num))
    · simp [handleFrame, hashmapRemove, hfind, hp0, h1, h2, frameTables, frameInvoked]

/-- C4 as amended: when a decoded STATUS frame's msgid matches a pending
entry, the entry is removed from the pending table and its callback is
invoked with the decoded result — EXCEPT when the original request was
NOTIFY, the decoded status is OK, and the msgid is not already in the
notification table: then the entry moves to the notification table and the
callback is not invoked. -/
theorem c4_amended_status_dispatch (st : CallbackTables) (msgid : Nat)
    (p0 : BuxtonParam) (rest : List BuxtonParam) (nv : NotifyValue)
    (hp0 : p0.type = .int32)
    (hfind : st.callbacks.lookup msgid = some nv) :
    (handleFrame st .status msgid (p0 :: rest)).isSome
    ∧ (frameTables (handleFrame st .status msgid (p0 :: rest))).callbacks.lookup msgid
        = none
    ∧ (if nv.msgType = .notify ∧ p0.int32 = BUXTON_STATUS_OK
          ∧ st.notifyCallbacks.lookup msgid = none
       then frameInvoked (handleFrame st .status msgid (p0 :: rest)) = []
          ∧ (frameTables (handleFrame st .status msgid (p0 :: rest))).notifyCallbacks.lookup
              msgid = some nv
       else frameInvoked (handleFrame st .status msgid (p0 :: rest)) = [nv.cb]) := by
  by_cases hexc : nv.msgType = .notify ∧ p0.int32 = BUXTON_STATUS_OK
      ∧ st.notifyCallbacks.lookup msgid = none
  · obtain ⟨h1, h2, hlook⟩ := hexc
    rw [handleFrame_status_notify_fresh st msgid p0 rest nv hp0 hfind h1 h2 hlook]
    rw [if_pos ⟨h1, h2, hlook⟩]
    refine ⟨rfl, lookup_filter_self _ _, rfl, lookup_append_single _ _ _ hlook⟩
  · rw [if_neg hexc]
    by_cases h1 : nv.msgType = .notify
    · by_cases h2 : p0.int32 = BUXTON_STATUS_OK
      · rcases hlook : st.notifyCallbacks.lookup msgid with _ | w
        · exact absurd ⟨h1, h2, hlook⟩ hexc
        · rw [handleFrame_status_notify_stale st msgid p0 rest nv w hp0 hfind h1 h2 hlook]
          exact ⟨rfl, lookup_filter_self _ _, rfl⟩
      · obtain ⟨ha, hb, hc⟩ := handleFrame_status_other_components st msgid p0 rest nv
          hp0 hfind (fun h => h2 h.2)
        exact ⟨ha, hb ▸ lookup_filter_self _ _, hc⟩
    · obtain ⟨ha, hb, hc⟩ := handleFrame_status_other_components st msgid p0 rest nv
        hp0 hfind (fun h => h1 h.1)
      exact ⟨ha, hb ▸ lookup_filter_self _ _, hc⟩

/-- Witness for the amended C4 at a concrete input: the pending entry under
msgid 7 came from a SET request, so presenting STATUS OK removes it and
invokes callback 2. -/
theorem c4_amended_status_dispatch_witness :
    (handleFrame ⟨[(7, ⟨0, .set, 2⟩)], []⟩ .status 7 [statusOkParam]).isSome
    ∧ (frameTables (handleFrame ⟨[(7, ⟨0, .set, 2⟩)], []⟩ .status 7
        [statusOkParam])).callbacks.lookup 7 = none
    ∧ (if (⟨0, .set, 2⟩ : NotifyValue).msgType = .notify
          ∧ statusOkParam.int32 = BUXTON_STATUS_OK
          ∧ (⟨[(7, ⟨0, .set, 2⟩)], []⟩ : CallbackTables).notifyCallbacks.lookup 7 = none
       then frameInvoked (handleFrame ⟨[(7, ⟨0, .set, 2⟩)], []⟩ .status 7
              [statusOkParam]) = []
          ∧ (frameTables (handleFrame ⟨[(7, ⟨0, .set, 2⟩)], []⟩ .status 7
              [statusOkParam])).notifyCallbacks.lookup 7 = some ⟨0, .set, 2⟩
       else frameInvoked (handleFrame ⟨[(7, ⟨0, .set, 2⟩)], []⟩ .status 7
              [statusOkParam]) = [(⟨0, .set, 2⟩ : NotifyValue).cb]) :=
  c4_amended_status_dispatch ⟨[(7, ⟨0, .set, 2⟩)], []⟩ 7 statusOkParam []
    ⟨0, .set, 2⟩ rfl (by decide)

/-! ## C5 and C10: return value and frame-shape filtering of the receive path -/

theorem handleFrame_isSome_of_accepted (st : CallbackTables) (msg : BuxtonControlMessage)
    (msgid : Nat) (params : List BuxtonParam)
    (h : acceptedFrame (.frame msg msgid params)) :
    (handleFrame st msg msgid params).isSome := by
  cases params with
  | nil => exact (h : False).elim
  | cons p0 rest =>
    have h' : (msg = .status ∧ p0.type = .int32) ∨ (msg = .changed ∧ p0.type = .string) := h
    simp only [handleFrame]
    rw [if_neg (not_not_intro h')]
    split <;> simp

theorem handleFrame_none_of_rejected (st : CallbackTables) (msg : BuxtonControlMessage)
    (msgid : Nat) (p0 : BuxtonParam) (rest : List BuxtonParam)
    (h : ¬ acceptedFrame (.frame msg msgid (p0 :: rest))) :
    handleFrame st msg msgid (p0 :: rest) = none := by
  simp only [handleFrame]
  exact if_pos h

theorem handleResponseLoop_append_accepted (pre : List ReadEvent)
    (hpre : ∀ ev ∈ pre, acceptedFrame ev) :
    ∀ (st : CallbackTables) (invoked : List Nat) (handled : Nat),
    ∃ st2 inv2, ∀ tail, handleResponseLoop st invoked handled (pre ++ tail)
        = handleResponseLoop st2 inv2 (handled + pre.length) tail := by
  induction pre with
  | nil =>
    intro st invoked handled
    exact ⟨st, invoked, fun tail => by simp⟩
  | cons ev pre ih =>
    intro st invoked handled
    have hev := hpre ev (List.mem_cons_self ev pre)
    cases ev with
    | sizeError => exact (hev : False).elim
    | corrupt => exact (hev : False).elim
    | frame msg msgid params =>
      have hs := handleFrame_isSome_of_accepted st msg msgid params hev
      rcases hx : handleFrame st msg msgid params with _ | ⟨st2, inv2⟩
      · rw [hx] at hs
        cases hs
      · obtain ⟨s3, i3, hrec⟩ := ih (fun e he => hpre e (List.mem_cons_of_mem _ he))
          st2 (invoked ++ inv2) (handled + 1)
        refine ⟨s3, i3, fun tail => ?_⟩
        simp only [List.cons_append, handleResponseLoop, hx]
        have harith : handleResponseLoop s3 i3 (handled + 1 + pre.length) tail
            = handleResponseLoop s3 i3
                (handled + (ReadEvent.frame msg msgid params :: pre).length) tail := by
          have : handled + 1 + pre.length
              = handled + (ReadEvent.frame msg msgid params :: pre).length := by
            simp only [List.length_cons]
            omega
          rw [this]
        exact (hrec tail).trans harith

/-- Counterexample to C5: on a stream whose first frame fails to decode,
`buxton_wire_handle_response` returns 0, not −1 (its return type, `size_t`,
cannot even carry −1). -/
theorem c5_decode_error_returns_zero_not_minus_one :
    (buxton_wire_handle_response ⟨[], []⟩ [.corrupt]).1 = 0
    ∧ ((buxton_wire_handle_response ⟨[], []⟩ [.corrupt]).1 : Int) ≠ -1 := by
  constructor
  · rfl
  · decide

/-- C5 as amended: the receive path returns the number of complete frames it
processed, and returns 0 (not −1) when it encounters a decode error — a
corrupt frame (`buxton_deserialize_message` count 0), a wrong magic, or a
declared size above the 4096-byte cap (both reported by
`buxton_get_message_size`). -/
theorem c5_amended_return_value (st : CallbackTables) (pre post : List ReadEvent)
    (hpre : ∀ ev ∈ pre, acceptedFrame ev) :
    (buxton_wire_handle_response st pre).1 = pre.length
    ∧ (buxton_wire_handle_response st (pre ++ ReadEvent.corrupt :: post)).1 = 0
    ∧ (buxton_wire_handle_response st (pre ++ ReadEvent.sizeError :: post)).1 = 0 := by
  obtain ⟨st2, inv2, hloop⟩ := handleResponseLoop_append_accepted pre hpre st [] 0
  refine ⟨?_, ?_, ?_⟩
  · have h1 := hloop []
    rw [List.append_nil] at h1
    rw [buxton_wire_handle_response, h1]
    simp [handleResponseLoop]
  · rw [buxton_wire_handle_response, hloop (ReadEvent.corrupt :: post)]
    rfl
  · rw [buxton_wire_handle_response, hloop (ReadEvent.sizeError :: post)]
    rfl

/-- Witness for the amended C5: one well-formed STATUS frame counts as one
processed frame; appending a corrupt or oversized frame makes the same call
return 0. -/
theorem c5_amended_return_value_witness :
    (buxton_wire_handle_response ⟨[], []⟩ [.frame .status 1 [⟨.int32, 0, 0, ""⟩]]).1
      = [ReadEvent.frame .status 1 [⟨.int32, 0, 0, ""⟩]].length
    ∧ (buxton_wire_handle_response ⟨[], []⟩
        ([.frame .status 1 [⟨.int32, 0, 0, ""⟩]] ++ ReadEvent.corrupt :: [])).1 = 0
    ∧ (buxton_wire_handle_response ⟨[], []⟩
        ([.frame .status 1 [⟨.int32, 0, 0, ""⟩]] ++ ReadEvent.sizeError :: [])).1 = 0 :=
  c5_amended_return_value ⟨[], []⟩ [.frame .status 1 [⟨.int32, 0, 0, ""⟩]] []
    (by decide)

/-- C10: the receive path accepts only STATUS-with-INT32-first or
CHANGED-with-STRING-first frames; any other successfully decoded frame makes
the function return 0 immediately — the frames already handled are not
counted and the rest of the stream is not processed. -/
theorem c10_rejects_other_frame_shapes (st : CallbackTables) (pre post : List ReadEvent)
    (msg : BuxtonControlMessage) (msgid : Nat) (p0 : BuxtonParam) (rest : List BuxtonParam)
    (hpre : ∀ ev ∈ pre, acceptedFrame ev)
    (hbad : ¬ acceptedFrame (.frame msg msgid (p0 :: rest))) :
    (buxton_wire_handle_response st (pre ++ .frame msg msgid (p0 :: rest) :: post)).1 = 0
    ∧ buxton_wire_handle_response st (pre ++ .frame msg msgid (p0 :: rest) :: post)
      = buxton_wire_handle_response st (pre ++ [.frame msg msgid (p0 :: rest)]) := by
  obtain ⟨st2, inv2, hloop⟩ := handleResponseLoop_append_accepted pre hpre st [] 0
  have hnone := handleFrame_none_of_rejected st2 msg msgid p0 rest hbad
  constructor
  · rw [buxton_wire_handle_response, hloop (ReadEvent.frame msg msgid (p0 :: rest) :: post)]
    simp [handleResponseLoop, hnone]
  · rw [buxton_wire_handle_response, hloop (ReadEvent.frame msg msgid (p0 :: rest) :: post),
      buxton_wire_handle_response, hloop [ReadEvent.frame msg msgid (p0 :: rest)]]
    simp [handleResponseLoop, hnone]

/-- Witness for C10: after one accepted STATUS frame, a decoded GET frame
aborts the call with return value 0, and the trailing events are ignored. -/
theorem c10_rejects_other_frame_shapes_witness :
    (buxton_wire_handle_response ⟨[], []⟩
        ([.frame .status 1 [⟨.int32, 0, 0, ""⟩]]
          ++ .frame .get 3 [⟨.int32, 0, 0, ""⟩] :: [ReadEvent.corrupt])).1 = 0
    ∧ buxton_wire_handle_response ⟨[], []⟩
        ([.frame .status 1 [⟨.int32, 0, 0, ""⟩]]
          ++ .frame .get 3 [⟨.int32, 0, 0, ""⟩] :: [ReadEvent.corrupt])
      = buxton_wire_handle_response ⟨[], []⟩
        ([.frame .status 1 [⟨.int32, 0, 0, ""⟩]] ++ [.frame .get 3 [⟨.int32, 0, 0, ""⟩]]) :=
  c10_rejects_other_frame_shapes ⟨[], []⟩ [.frame .status 1 [⟨.int32, 0, 0, ""⟩]]
    [ReadEvent.corrupt] .get 3 ⟨.int32, 0, 0, ""⟩ [] (by decide) (by decide)

/-! ## C1, C2, C3, C7, C8: the direct-access layered store -/

theorem find?_filter_none {α : Type} (l : List α) (p q : α → Bool)
    (h : l.find? p = none) : (l.filter q).find? p = none := by
  rw [List.find?_eq_none] at *
  intro x hx
  exact h x (List.mem_of_mem_filter hx)

theorem foldl_scanStep_chosen (chk : SmackCheck) (cfg : BuxtonConfig)
    (store : BuxtonStore) (key : BuxtonKey) (clientLabel : Option String) :
    ∀ (L : List BuxtonLayer) (acc : ScanAcc),
    (∀ l ∈ L, (buxton_direct_get_value_for_layer chk cfg store
        { key with layer := some l.name } clientLabel).ret = 0) →
    (L.foldl (scanStep chk cfg store key clientLabel) acc).chosen = acc.chosen := by
  intro L
  induction L with
  | nil =>
    intro acc h
    rfl
  | cons l t ih =>
    intro acc h
    rw [List.foldl_cons]
    have hl := h l (List.mem_cons_self l t)
    have hstep : (scanStep chk cfg store key clientLabel acc l).chosen = acc.chosen := by
      simp [scanStep, hl]
    rw [ih _ (fun x hx => h x (List.mem_cons_of_mem _ hx))]
    exact hstep

/-- C1 (evaluation of the code at the failing situation): when the key is
readable in EVERY configured layer (per-layer status 0), the layered read
returns `ENOENT` with no data — the scan at direct.c lines 66-94 tracks a
layer only when the per-layer lookup returned a NONzero status, so a key
that exists everywhere is treated as existing nowhere. -/
theorem c1_get_value_enoent_although_key_present (chk : SmackCheck)
    (cfg : BuxtonConfig) (store : BuxtonStore) (key : BuxtonKey)
    (clientLabel : Option String)
    (hnolayer : key.layer = none)
    (hall : ∀ l ∈ cfg, (buxton_direct_get_value_for_layer chk cfg store
        { key with layer := some l.name } clientLabel).ret = 0) :
    (buxton_direct_get_value chk cfg store key clientLabel).ret = ENOENT
    ∧ (buxton_direct_get_value chk cfg store key clientLabel).data = none := by
  have hch := foldl_scanStep_chosen chk cfg store key clientLabel cfg
    ⟨none, 0, none, none⟩ hall
  simp only [buxton_direct_get_value, hnolayer]
  rw [hch]
  exact ⟨rfl, rfl⟩

/-- Witness for C1: a single SYSTEM layer "base" holding group "g" and value
"g"/"n"; the layered GET for ("g","n") nevertheless reports `ENOENT`. -/
theorem c1_get_value_enoent_although_key_present_witness :
    (buxton_direct_get_value (fun _ _ _ => true) [⟨"base", .system, 1⟩]
        [⟨"base", "g", none, .string "BUXTON_GROUP_VALUE", some "_"⟩,
         ⟨"base", "g", some "n", .int32 10, some "_"⟩]
        ⟨none, "g", some "n"⟩ none).ret = ENOENT
    ∧ (buxton_direct_get_value (fun _ _ _ => true) [⟨"base", .system, 1⟩]
        [⟨"base", "g", none, .string "BUXTON_GROUP_VALUE", some "_"⟩,
         ⟨"base", "g", some "n", .int32 10, some "_"⟩]
        ⟨none, "g", some "n"⟩ none).data = none :=
  c1_get_value_enoent_although_key_present (fun _ _ _ => true) [⟨"base", .system, 1⟩]
    [⟨"base", "g", none, .string "BUXTON_GROUP_VALUE", some "_"⟩,
     ⟨"base", "g", some "n", .int32 10, some "_"⟩]
    ⟨none, "g", some "n"⟩ none rfl (by decide)

/-- C2 (evaluation of the code at the failing situation): with NO group
record at (layer, group), `buxton_direct_set_value` does not fail — it
stores the value record (with an unwritten label buffer) and returns the
backend boolean 1; the stored record then exists without its group record. -/
theorem c2_set_value_stores_despite_missing_group (chk : SmackCheck)
    (cfg : BuxtonConfig) (store : BuxtonStore) (ln g n : String)
    (v : BuxtonDataValue) (lyr : BuxtonLayer)
    (hlayer : layerLookup cfg ln = some lyr)
    (hgroup : storeGet store ln g none = none) :
    buxton_direct_set_value chk cfg store ⟨some ln, g, some n⟩ v none
      = ⟨1, storeSet store ln g (some n) v none⟩
    ∧ storeGet (buxton_direct_set_value chk cfg store ⟨some ln, g, some n⟩ v none).store
        ln g (some n) = some (v, none)
    ∧ storeGet (buxton_direct_set_value chk cfg store ⟨some ln, g, some n⟩ v none).store
        ln g none = none := by
  have hmain : buxton_direct_set_value chk cfg store ⟨some ln, g, some n⟩ v none
      = ⟨1, storeSet store ln g (some n) v none⟩ := by
    simp [buxton_direct_set_value, getGroupForLayer, buxton_direct_get_value_for_layer,
      hlayer, hgroup, BUXTON_STATUS_FAILED]
  refine ⟨hmain, ?_, ?_⟩
  · rw [hmain]
    simp [storeGet, storeSet]
  · rw [hmain]
    simp only [storeGet, storeSet]
    rw [List.find?_cons_of_neg _ (by simp)]
    rw [find?_filter_none _ _ _ (by simpa [storeGet] using hgroup)]
    rfl

/-- Witness for C2: empty store, layer "base"; SET of ("base","g","n") = 5
succeeds and creates the value record with no group record present. -/
theorem c2_set_value_stores_despite_missing_group_witness :
    buxton_direct_set_value (fun _ _ _ => true) [⟨"base", .system, 1⟩] []
        ⟨some "base", "g", some "n"⟩ (.int32 5) none
      = ⟨1, storeSet [] "base" "g" (some "n") (.int32 5) none⟩
    ∧ storeGet (buxton_direct_set_value (fun _ _ _ => true) [⟨"base", .system, 1⟩] []
        ⟨some "base", "g", some "n"⟩ (.int32 5) none).store "base" "g" (some "n")
      = some (.int32 5, none)
    ∧ storeGet (buxton_direct_set_value (fun _ _ _ => true) [⟨"base", .system, 1⟩] []
        ⟨some "base", "g", some "n"⟩ (.int32 5) none).store "base" "g" none = none :=
  c2_set_value_stores_despite_missing_group (fun _ _ _ => true) [⟨"base", .system, 1⟩]
    [] "base" "g" "n" (.int32 5) ⟨"base", .system, 1⟩ (by decide) (by decide)

/-- C3 (evaluation of the code at the failing situation): when NO group
record exists (and the caller is permitted), `buxton_direct_create_group`
returns `EEXIST` and creates nothing — the existence probe at direct.c line
389 treats the NONzero (absent) status as "already exists". -/
theorem c3_create_group_eexist_when_absent (chk : SmackCheck) (cfg : BuxtonConfig)
    (store : BuxtonStore) (ln g : String) (lbl : Option String)
    (uid : Nat) (rootCheck : Option String) (lyr : BuxtonLayer)
    (hlayer : layerLookup cfg ln = some lyr)
    (hpriv : ¬ (lyr.type = .system ∧ uid ≠ 0 ∧ ¬ (rootCheck = some "0")))
    (hgroup : storeGet store ln g none = none) :
    buxton_direct_create_group chk cfg store ⟨some ln, g, none⟩ lbl uid rootCheck
      = ⟨EEXIST, store⟩ := by
  simp [buxton_direct_create_group, hlayer, hpriv, buxton_direct_get_value_for_layer,
    getGroupForLayer, hgroup, BUXTON_STATUS_FAILED]

/-- Witness for C3: root caller, empty store — creating group "g" in layer
"base" reports `EEXIST` and stores nothing. -/
theorem c3_create_group_eexist_when_absent_witness :
    buxton_direct_create_group (fun _ _ _ => true) [⟨"base", .system, 1⟩] []
        ⟨some "base", "g", none⟩ none 0 none = ⟨EEXIST, []⟩ :=
  c3_create_group_eexist_when_absent (fun _ _ _ => true) [⟨"base", .system, 1⟩] []
    "base" "g" none 0 none ⟨"base", .system, 1⟩ (by decide) (by decide) (by decide)

/-- C7 (evaluation of the code at the failing situation): on a USER layer,
`buxton_direct_set_label` modifies nothing but returns `BUXTON_STATUS_OK`
(0) — `ret` is initialised to OK and the USER-layer bailout never changes
it — so the operation DOES report success, contrary to the claim. -/
theorem c7_set_label_reports_ok_on_user_layer (chk : SmackCheck) (cfg : BuxtonConfig)
    (store : BuxtonStore) (ln g : String) (n : Option String) (lbl : String)
    (uid : Nat) (rootCheck : Option String) (lyr : BuxtonLayer)
    (hlayer : layerLookup cfg ln = some lyr) (huser : lyr.type = .user) :
    buxton_direct_set_label chk cfg store ⟨some ln, g, n⟩ lbl uid rootCheck
      = ⟨BUXTON_STATUS_OK, store⟩ := by
  simp [buxton_direct_set_label, hlayer, huser]

/-- Witness for C7: an unprivileged caller on USER layer "u": SET_LABEL
returns 0 (OK) with the store unchanged. -/
theorem c7_set_label_reports_ok_on_user_layer_witness :
    buxton_direct_set_label (fun _ _ _ => true) [⟨"u", .user, 1⟩]
        [⟨"u", "g", none, .string "BUXTON_GROUP_VALUE", some "_"⟩]
        ⟨some "u", "g", none⟩ "L" 1000 none
      = ⟨BUXTON_STATUS_OK, [⟨"u", "g", none, .string "BUXTON_GROUP_VALUE", some "_"⟩]⟩ :=
  c7_set_label_reports_ok_on_user_layer (fun _ _ _ => true) [⟨"u", .user, 1⟩]
    [⟨"u", "g", none, .string "BUXTON_GROUP_VALUE", some "_"⟩]
    "u" "g" none "L" 1000 none ⟨"u", .user, 1⟩ (by decide) rfl

/-- C8 (evaluation of the code at the failing situation): the reachable SET
store path (group record absent, no caller label) writes the value record
with an EMPTY label (the unwritten `data_label` buffer), not the default
"_" the claim requires. -/
theorem c8_set_value_label_empty_not_default (chk : SmackCheck) (cfg : BuxtonConfig)
    (store : BuxtonStore) (ln g n : String) (v : BuxtonDataValue) (lyr : BuxtonLayer)
    (hlayer : layerLookup cfg ln = some lyr)
    (hgroup : storeGet store ln g none = none) :
    storeGet (buxton_direct_set_value chk cfg store ⟨some ln, g, some n⟩ v none).store
        ln g (some n) = some (v, none)
    ∧ (some (v, (none : Option String))
        : Option (BuxtonDataValue × Option String)) ≠ some (v, some "_") := by
  constructor
  · have hmain : buxton_direct_set_value chk cfg store ⟨some ln, g, some n⟩ v none
        = ⟨1, storeSet store ln g (some n) v none⟩ := by
      simp [buxton_direct_set_value, getGroupForLayer, buxton_direct_get_value_for_layer,
        hlayer, hgroup, BUXTON_STATUS_FAILED]
    rw [hmain]
    simp [storeGet, storeSet]
  · simp

/-- Witness for C8: SET of ("base","g","n") with no label into an empty
store leaves a record whose label is empty, not "_". -/
theorem c8_set_value_label_empty_not_default_witness :
    storeGet (buxton_direct_set_value (fun _ _ _ => true) [⟨"base", .system, 1⟩] []
        ⟨some "base", "g", some "n"⟩ (.int32 5) none).store "base" "g" (some "n")
      = some (.int32 5, none)
    ∧ (some (.int32 5, (none : Option String))
        : Option (BuxtonDataValue × Option String)) ≠ some (.int32 5, some "_") :=
  c8_set_value_label_empty_not_default (fun _ _ _ => true) [⟨"base", .system, 1⟩] []
    "base" "g" "n" (.int32 5) ⟨"base", .system, 1⟩ (by decide) (by decide)

end Buxton
